import Mathlib

/-!
Verification of the domain-events dispatcher (`event.py`, `event_protocols.py`).

The embedding models:
* `EventInterface` (`event_protocols.py`): an event carries a payload (`data`),
  a `date_time_ocurred` value (the source spells the field this way) and is
  identified at dispatch by its runtime class name.  The dataclass field
  default `datetime.utcnow().isoformat()` is evaluated once, when the class
  body is executed; constructions that omit the timestamp therefore all
  receive that single, class-definition-time reading.  We thread both the
  class-definition-time reading (`classDefTime`) and the construction-time
  clock reading (`now`) as explicit parameters; the translated code uses only
  the former, exactly as the source does.
* `EventHandlerInterface`: `handle` of the base class raises
  `NotImplementedError`; the dispatcher's `register` guard is
  `isinstance(handler, EventHandlerInterface)`, a nominal test which an
  instance of the base class itself passes.  A `Handler` value records the
  outcome of that nominal test (`isInstance`), whether its class overrides
  `handle` (`overridesHandle`), and which exception, if any, an overridden
  `handle` raises (`raises`).
* `EventDispatcher`: `__handlers : Dict[str, Set[EventHandlerInterface]]` is
  an insertion-ordered association list from event name to a duplicate-free
  list of handlers (Python `dict` preserves insertion order; a `set` is
  unordered, so the list order stands for one concrete iteration order).
* Exceptions are an inductive type `PyExc`; the `ValueError`s of the source
  are distinguished by their messages, which carry the event name and, for
  the unregister failure, the handler class name.
-/

namespace DomainEvents

/-- Primitive payload field values appearing in a dataclass record, as far as
`asdict` flattening is concerned. -/
inductive PrimVal where
  | pstr (s : String)
  | pint (n : Int)
  deriving DecidableEq, Repr

/-- Values appearing in the map produced by `EventInterface.to_dict`: the
timestamp entry is a string, the payload entry is the `asdict` image of the
payload record. -/
inductive JVal where
  | jstr (s : String)
  | jobj (fields : List (String × PrimVal))
  deriving DecidableEq, Repr

/-- Exceptions raised by the translated code.  `unknownEvent name` is the
`ValueError("Event '<name>' not registered")` of `notify`/`unregister`;
`unknownHandler h name` is the `ValueError("EventHandler '<h>' not registered
for event '<name>'")` of `unregister`; `typeMismatch` is the `TypeError` of
`register`; `invalidPayload` is the `ValueError` of
`EventInterface.__post_init__`; `notImplemented` is the
`NotImplementedError` of the base `handle`; `keyError` is a raw Python
`KeyError` raised by a handler body; `fault tag` is any other exception a
handler body raises. -/
inductive PyExc where
  | unknownEvent (eventName : String)
  | unknownHandler (handlerName : String) (eventName : String)
  | typeMismatch
  | invalidPayload
  | notImplemented
  | keyError
  | fault (tag : Nat)
  deriving DecidableEq, Repr

/-- A payload candidate: its class name, whether `is_dataclass` holds of it,
and its field record (the `asdict` flattening when it is a dataclass). -/
structure Payload where
  className : String
  isDataclass : Bool
  fields : List (String × PrimVal)
  deriving DecidableEq, Repr

/-- An `EventInterface` instance: `className` is `event.__class__.__name__`
(the dispatch key), `data` the payload, `date_time_ocurred` the timestamp
field (spelled as in the source). -/
structure Event where
  className : String
  data : Payload
  date_time_ocurred : String
  deriving DecidableEq, Repr

/-- An object presented to the dispatcher as a handler: `className` is its
`__class__.__name__`, `hid` distinguishes distinct instances, `isInstance`
records the outcome of `isinstance(·, EventHandlerInterface)`,
`overridesHandle` whether its class overrides `handle`, and `raises` the
exception an overridden `handle` body raises (`none` = returns normally). -/
structure Handler where
  className : String
  hid : Nat
  isInstance : Bool
  overridesHandle : Bool
  raises : Option PyExc
  deriving DecidableEq, Repr

/-- Outcome of calling `handler.handle(event)`: the overridden body's outcome
when the class overrides `handle`, otherwise the base class's
`raise NotImplementedError()` (`event_protocols.py`, `EventHandlerInterface.handle`). -/
def Handler.handleOutcome (h : Handler) : Option PyExc :=
  if h.overridesHandle then h.raises else some .notImplemented

/-- Lookup in an insertion-ordered association list, as `d[k]` / `k in d` on a
Python `dict`. -/
def dictGet {α : Type} (m : List (String × α)) (k : String) : Option α :=
  match m with
  | [] => none
  | (k0, v) :: rest => if k0 = k then some v else dictGet rest k

/-- Update in an insertion-ordered association list, as `d[k] = v` on a Python
`dict`: an existing key keeps its position, a new key is appended. -/
def dictSet {α : Type} (m : List (String × α)) (k : String) (v : α) :
    List (String × α) :=
  match m with
  | [] => [(k, v)]
  | (k0, v0) :: rest =>
    if k0 = k then (k, v) :: rest else (k0, v0) :: dictSet rest k v

/-- `EventInterface.__init__` plus `__post_init__` (`event_protocols.py`).
`classDefTime` is the value of `datetime.utcnow().isoformat()` captured when
the class body was executed (the dataclass field default); `now` is the UTC
clock reading at this construction; `ts` is an explicitly passed timestamp.
The field default uses `classDefTime`, never `now`, exactly as the source
does; `__post_init__` raises `ValueError` when the payload is not a
dataclass. -/
def mkEvent (classDefTime : String) (now : String) (className : String)
    (data : Payload) (ts : Option String) : Except PyExc Event :=
  if data.isDataclass then
    .ok { className := className, data := data,
          date_time_ocurred := ts.getD classDefTime }
  else
    .error .invalidPayload

/-- Python `str.lower()` on the ASCII class names in play: lowercase each
character. -/
def pyLower (s : String) : String :=
  ⟨s.data.map Char.toLower⟩

/-- `EventInterface.to_dict` (`event_protocols.py`): the Python dict literal
`{'date_time_occurred': self.date_time_ocurred,
  str(self.data.__class__.__name__).lower(): {**asdict(self.data)}}`.
A dict literal inserts its entries left to right, so if the second key equals
the first the second entry overwrites the first. -/
def Event.to_dict (e : Event) : List (String × JVal) :=
  dictSet (dictSet [] "date_time_occurred" (.jstr e.date_time_ocurred))
    (pyLower e.data.className) (.jobj e.data.fields)

/-- `EventDispatcher.__handlers` (`event.py`): the mapping from event name to
the set of registered handlers. -/
structure EventDispatcher where
  handlers : List (String × List Handler)
  deriving DecidableEq, Repr

/-- Python `set.add`: a no-op when the element is already a member, otherwise
the element joins the set (appended, standing for one concrete iteration
order of the unordered collection). -/
def addToSet (cur : List Handler) (h : Handler) : List Handler :=
  if h ∈ cur then cur else cur ++ [h]

/-- `EventDispatcher.register` (`event.py`): raise `TypeError` unless
`isinstance(event_handler, EventHandlerInterface)`; otherwise create the key
with an empty set if absent and `add` the handler.  The returned pair is the
dispatcher state after the call and the exception raised, if any; on an
exception the state is unchanged (the source raises before mutating). -/
def register (d : EventDispatcher) (eventName : String) (h : Handler) :
    EventDispatcher × Option PyExc :=
  if h.isInstance then
    (⟨dictSet d.handlers eventName
        (addToSet ((dictGet d.handlers eventName).getD []) h)⟩, none)
  else
    (d, some .typeMismatch)

/-- `EventDispatcher.unregister` (`event.py`): `ValueError("Event ... not
registered")` when the name is not a key; otherwise `set.remove`, whose
`KeyError` on a missing member is translated to `ValueError("EventHandler ...
not registered for event ...")`. -/
def unregister (d : EventDispatcher) (eventName : String) (h : Handler) :
    EventDispatcher × Option PyExc :=
  match dictGet d.handlers eventName with
  | none => (d, some (.unknownEvent eventName))
  | some s =>
    if h ∈ s then
      (⟨dictSet d.handlers eventName (s.erase h)⟩, none)
    else
      (d, some (.unknownHandler h.className eventName))

/-- `EventDispatcher.unregister_all` (`event.py`): replace the mapping by a
fresh empty dict. -/
def unregister_all (d : EventDispatcher) : EventDispatcher :=
  ⟨[]⟩

/-- The `for handler in handlers: handler.handle(event)` loop body of
`notify`: returns the sequence of `handle` invocations actually performed
(each as the pair handler/event) and the first exception a body raised, if
any; an exception stops the loop, so handlers after the faulting one are not
invoked (the faulting handler itself was invoked). -/
def runHandlers (hs : List Handler) (e : Event) :
    List (Handler × Event) × Option PyExc :=
  match hs with
  | [] => ([], none)
  | h :: rest =>
    match h.handleOutcome with
    | some exc => ([(h, e)], some exc)
    | none =>
      let r := runHandlers rest e
      ((h, e) :: r.1, r.2)

/-- `EventDispatcher.notify` (`event.py`): look up
`self.__handlers[event.__class__.__name__]` and run every handler.  The
`try` block spans the lookup AND the loop, and `except KeyError` re-raises
`ValueError("Event '<name>' not registered")`: a missing key raises
`KeyError`, but a `KeyError` raised by a handler body lands in the same
`except` clause and is translated identically.  Every other handler
exception propagates unchanged. -/
def notify (d : EventDispatcher) (e : Event) :
    List (Handler × Event) × Option PyExc :=
  match dictGet d.handlers e.className with
  | none => ([], some (.unknownEvent e.className))
  | some hs =>
    let r := runHandlers hs e
    match r.2 with
    | some .keyError => (r.1, some (.unknownEvent e.className))
    | _ => r

/-! Concrete fixtures, mirroring the instances built in
`test_domain_events.py`. -/

/-- A handler as `TestHandler` of the test suite: a proper instance that
overrides `handle` with a body that returns normally. -/
def handlerA : Handler :=
  { className := "TestHandler", hid := 1, isInstance := true,
    overridesHandle := true, raises := none }

/-- A second well-behaved handler, as `SendNewPaymentRequest`. -/
def handlerB : Handler :=
  { className := "SendNewPaymentRequest", hid := 2, isInstance := true,
    overridesHandle := true, raises := none }

/-- A third well-behaved handler, registered under a different event name. -/
def handlerC : Handler :=
  { className := "OtherHandler", hid := 3, isInstance := true,
    overridesHandle := true, raises := none }

/-- A handler whose overridden `handle` body raises a raw `KeyError`. -/
def keyErrorHandler : Handler :=
  { className := "KeyErrorHandler", hid := 4, isInstance := true,
    overridesHandle := true, raises := some .keyError }

/-- An instance of the base `EventHandlerInterface` itself: it passes the
`isinstance` test but its class never overrides `handle`. -/
def baseHandler : Handler :=
  { className := "EventHandlerInterface", hid := 5, isInstance := true,
    overridesHandle := false, raises := none }

/-- A plain `object()` as passed in the test suite's `TypeError` test: not an
`EventHandlerInterface` instance. -/
def nonHandler : Handler :=
  { className := "object", hid := 6, isInstance := false,
    overridesHandle := false, raises := none }

/-- The `Order(status='created', total=100)` payload of the test suite. -/
def orderPayload : Payload :=
  { className := "Order", isDataclass := true,
    fields := [("status", .pstr "created"), ("total", .pint 100)] }

/-- An `EventTest` event over the order payload. -/
def eventTest : Event :=
  { className := "EventTest", data := orderPayload,
    date_time_ocurred := "2022-01-01T00:00:00" }

/-- The empty dispatcher, as `EventDispatcher()`. -/
def d0 : EventDispatcher := ⟨[]⟩

/-- A dispatcher with two handlers under "EventTest" and one under
"OtherTest". -/
def dAB : EventDispatcher :=
  ⟨[("EventTest", [handlerA, handlerB]), ("OtherTest", [handlerC])]⟩

/-- A dispatcher whose "EventTest" set starts with a `KeyError`-raising
handler followed by a well-behaved one. -/
def dKE : EventDispatcher :=
  ⟨[("EventTest", [keyErrorHandler, handlerA])]⟩

/-- A dispatcher with only the key "OtherTest" registered. -/
def dOther : EventDispatcher := ⟨[("OtherTest", [handlerA])]⟩

/-- A non-dataclass payload, standing for a plain value such as an `int`. -/
def badPayload : Payload :=
  { className := "int", isDataclass := false, fields := [] }

/-- A dataclass payload whose class name lowercases to exactly
"date_time_occurred". -/
def shoutPayload : Payload :=
  { className := "DATE_TIME_OCCURRED", isDataclass := true,
    fields := [("status", .pstr "created")] }

/-- An event over `shoutPayload`. -/
def shoutEvent : Event :=
  { className := "ShoutEvent", data := shoutPayload,
    date_time_ocurred := "2022-01-01T00:00:00" }

/-- An `OrderCreatedEvent` over the order payload. -/
def orderEvent : Event :=
  { className := "OrderCreatedEvent", data := orderPayload,
    date_time_ocurred := "2022-01-01T00:00:00" }

/-! Association-list lemmas for the dict operations. -/

/-- Setting a key then reading it back yields the written value. -/
theorem dictGet_dictSet_self {α : Type} (m : List (String × α)) (k : String)
    (v : α) : dictGet (dictSet m k v) k = some v := by
  induction m with
  | nil => simp [dictSet, dictGet]
  | cons p rest ih =>
    obtain ⟨k0, v0⟩ := p
    by_cases hq : k0 = k
    · subst hq; simp [dictSet, dictGet]
    · simp [dictSet, dictGet, hq, ih]

/-- Setting a key leaves every other key's value unchanged. -/
theorem dictGet_dictSet_ne {α : Type} (m : List (String × α)) (k k1 : String)
    (v : α) (hne : k1 ≠ k) : dictGet (dictSet m k v) k1 = dictGet m k1 := by
  have hne1 : ¬ (k = k1) := fun h => hne h.symm
  induction m with
  | nil => simp [dictSet, dictGet, hne1]
  | cons p rest ih =>
    obtain ⟨k0, v0⟩ := p
    by_cases hq : k0 = k
    · subst hq
      simp [dictSet, dictGet, hne1]
    · simp [dictSet, dictGet, hq, ih]

/-- Two successive writes to the same key collapse to the second. -/
theorem dictSet_dictSet {α : Type} (m : List (String × α)) (k : String)
    (v v1 : α) : dictSet (dictSet m k v) k v1 = dictSet m k v1 := by
  induction m with
  | nil => simp [dictSet]
  | cons p rest ih =>
    obtain ⟨k0, v0⟩ := p
    by_cases hq : k0 = k
    · subst hq; simp [dictSet]
    · simp [dictSet, hq, ih]

/-- The added handler is a member of the updated set. -/
theorem mem_addToSet (cur : List Handler) (h : Handler) : h ∈ addToSet cur h := by
  unfold addToSet
  by_cases hc : h ∈ cur
  · simp [hc]
  · simp [hc]

/-- Adding an element already present is a no-op, as for a Python set. -/
theorem addToSet_eq_of_mem (cur : List Handler) (h : Handler) (hc : h ∈ cur) :
    addToSet cur h = cur := by
  simp [addToSet, hc]

/-- When every handler body returns normally, the notify loop performs
exactly one invocation per handler, in set-iteration order, and raises
nothing. -/
theorem runHandlers_all_ok (e : Event) (hs : List Handler)
    (hok : ∀ h ∈ hs, h.handleOutcome = none) :
    runHandlers hs e = (hs.map (fun h => (h, e)), none) := by
  induction hs with
  | nil => rfl
  | cons h rest ih =>
    have h1 : h.handleOutcome = none := hok h (List.mem_cons_self h rest)
    have h2 : ∀ h0 ∈ rest, h0.handleOutcome = none :=
      fun h0 hm => hok h0 (List.mem_cons_of_mem h hm)
    simp [runHandlers, h1, ih h2]

/-- Counting a handler/event pair in the invocation list counts the
handler in the set. -/
theorem count_pair_map (hs : List Handler) (e : Event) (h0 : Handler) :
    (hs.map (fun h => (h, e))).count (h0, e) = hs.count h0 := by
  induction hs with
  | nil => rfl
  | cons h rest ih =>
    simp [List.count_cons, ih, Prod.ext_iff]

/-- C1: for every dispatcher state and every event whose type name is a
registered key, when every handler body in that key's set returns normally,
`notify` raises nothing and invokes `handle` with that event exactly once on
every handler currently in the set and zero times on every other handler —
in particular zero times on handlers registered only under other event
names. -/
theorem notify_delivers_once (d : EventDispatcher) (e : Event)
    (hs : List Handler)
    (hk : dictGet d.handlers e.className = some hs)
    (hnd : hs.Nodup)
    (hok : ∀ h ∈ hs, h.handleOutcome = none) :
    (notify d e).2 = none ∧
    ∀ h0 : Handler,
      (notify d e).1.count (h0, e) = if h0 ∈ hs then 1 else 0 := by
  have hrun := runHandlers_all_ok e hs hok
  have hnot : notify d e = (hs.map (fun h => (h, e)), none) := by
    simp [notify, hk, hrun]
  refine ⟨by simp [hnot], ?_⟩
  intro h0
  rw [hnot]
  simp only [count_pair_map]
  by_cases hm : h0 ∈ hs
  · simp [hm, List.count_eq_one_of_mem hnd hm]
  · simp [hm, List.count_eq_zero_of_not_mem hm]

/-- C1 witness: on the concrete dispatcher with `handlerA`, `handlerB` under
"EventTest" and `handlerC` under "OtherTest", notify of an `EventTest` event
raises nothing, invokes `handlerA` exactly once and `handlerC` zero times. -/
theorem notify_delivers_once_witness :
    (notify dAB eventTest).2 = none ∧
    (notify dAB eventTest).1.count (handlerA, eventTest) = 1 ∧
    (notify dAB eventTest).1.count (handlerC, eventTest) = 0 := by
  have h := notify_delivers_once dAB eventTest [handlerA, handlerB]
    (by decide) (by decide) (by decide)
  refine ⟨h.1, ?_, ?_⟩
  · rw [h.2 handlerA]; decide
  · rw [h.2 handlerC]; decide

/-- C4: notify of an event whose type name is not a key of the mapping
raises the unknown-event `ValueError` carrying the event type name and
performs no handler invocation, regardless of what other names are
registered. -/
theorem notify_unknown_event (d : EventDispatcher) (e : Event)
    (hk : dictGet d.handlers e.className = none) :
    notify d e = ([], some (.unknownEvent e.className)) := by
  simp [notify, hk]

/-- C4 witness: a dispatcher with only "OtherTest" registered rejects an
`EventTest` event with the error carrying "EventTest" and invokes nothing. -/
theorem notify_unknown_event_witness :
    notify dOther eventTest = ([], some (.unknownEvent "EventTest")) :=
  notify_unknown_event dOther eventTest (by decide)

/-- C6: register with an argument failing the `isinstance` guard raises
`TypeError` and returns with the handlers mapping completely unchanged. -/
theorem register_type_mismatch (d : EventDispatcher) (en : String)
    (h : Handler) (hni : h.isInstance = false) :
    register d en h = (d, some .typeMismatch) := by
  simp [register, hni]

/-- C6 witness: registering a plain `object()` on the concrete dispatcher
raises `TypeError` and leaves the state unchanged. -/
theorem register_type_mismatch_witness :
    register dAB "EventTest" nonHandler = (dAB, some .typeMismatch) :=
  register_type_mismatch dAB "EventTest" nonHandler rfl

/-- C5: unregister raises the unknown-event error when the name is not a
key; raises the unknown-handler error, carrying the handler class name and
the event name, when the name is a key but the handler is not in its set;
and otherwise succeeds, removing exactly that handler — it is gone, every
other handler stays — while the event name remains a key of the mapping
(even if its set becomes empty) and every other key is untouched. -/
theorem unregister_cases (d : EventDispatcher) (en : String) (h : Handler) :
    (dictGet d.handlers en = none →
      unregister d en h = (d, some (.unknownEvent en))) ∧
    (∀ s, dictGet d.handlers en = some s → h ∉ s →
      unregister d en h = (d, some (.unknownHandler h.className en))) ∧
    (∀ s, dictGet d.handlers en = some s → h ∈ s → s.Nodup →
      (unregister d en h).2 = none ∧
      dictGet (unregister d en h).1.handlers en = some (s.erase h) ∧
      h ∉ s.erase h ∧
      (∀ h0, h0 ≠ h → (h0 ∈ s.erase h ↔ h0 ∈ s)) ∧
      (∀ k, k ≠ en →
        dictGet (unregister d en h).1.handlers k = dictGet d.handlers k)) := by
  refine ⟨?_, ?_, ?_⟩
  · intro hk
    simp [unregister, hk]
  · intro s hk hm
    simp [unregister, hk, hm]
  · intro s hk hm hnd
    have hu : unregister d en h
        = (⟨dictSet d.handlers en (s.erase h)⟩, none) := by
      simp [unregister, hk, hm]
    refine ⟨by simp [hu], ?_, hnd.not_mem_erase, ?_, ?_⟩
    · rw [hu]
      exact dictGet_dictSet_self _ _ _
    · intro h0 hne
      simp [hnd.mem_erase_iff, hne]
    · intro k hkne
      rw [hu]
      exact dictGet_dictSet_ne _ _ _ _ hkne

/-- C5 witness: on concrete dispatchers, the unknown event name fails with
the error carrying "EventTest"; an absent handler fails with the error
carrying its class name and the event name; removing a present handler
succeeds and the key keeps the remaining set. -/
theorem unregister_cases_witness :
    unregister dOther "EventTest" handlerA
      = (dOther, some (.unknownEvent "EventTest")) ∧
    unregister dAB "EventTest" keyErrorHandler
      = (dAB, some (.unknownHandler "KeyErrorHandler" "EventTest")) ∧
    (unregister dAB "EventTest" handlerA).2 = none ∧
    dictGet (unregister dAB "EventTest" handlerA).1.handlers "EventTest"
      = some ([handlerA, handlerB].erase handlerA) :=
  ⟨(unregister_cases dOther "EventTest" handlerA).1 (by decide),
   (unregister_cases dAB "EventTest" keyErrorHandler).2.1
     [handlerA, handlerB] (by decide) (by decide),
   ((unregister_cases dAB "EventTest" handlerA).2.2
     [handlerA, handlerB] (by decide) (by decide) (by decide)).1,
   ((unregister_cases dAB "EventTest" handlerA).2.2
     [handlerA, handlerB] (by decide) (by decide) (by decide)).2.1⟩

/-- C7: registering the same valid handler twice in a row raises no error
and yields exactly the mapping of registering it once — the second call is a
no-op on the set's membership. -/
theorem register_idempotent (d : EventDispatcher) (en : String) (h : Handler)
    (hi : h.isInstance = true) :
    (register d en h).2 = none ∧
    register (register d en h).1 en h = register d en h := by
  have hfst : register d en h
      = (⟨dictSet d.handlers en
            (addToSet ((dictGet d.handlers en).getD []) h)⟩, none) := by
    simp [register, hi]
  refine ⟨by simp [hfst], ?_⟩
  rw [hfst]
  have h1 : dictGet
      (dictSet d.handlers en (addToSet ((dictGet d.handlers en).getD []) h))
      en = some (addToSet ((dictGet d.handlers en).getD []) h) :=
    dictGet_dictSet_self _ _ _
  have hmem : h ∈ addToSet ((dictGet d.handlers en).getD []) h :=
    mem_addToSet _ _
  simp [register, hi, h1, addToSet_eq_of_mem _ h hmem, dictSet_dictSet]

/-- C7 witness: registering `handlerA` twice from the empty dispatcher
raises nothing and equals registering it once. -/
theorem register_idempotent_witness :
    (register d0 "EventTest" handlerA).2 = none ∧
    register (register d0 "EventTest" handlerA).1 "EventTest" handlerA
      = register d0 "EventTest" handlerA :=
  register_idempotent d0 "EventTest" handlerA rfl

/-- C2: evaluation at the failing input.  "EventTest" is a registered key
and its first handler's body raises a raw `KeyError`; `notify` nonetheless
reports the unknown-event `ValueError` — "Event 'EventTest' not registered"
— because the `try` block of the source spans the handler loop, so the
handler's `KeyError` is translated instead of propagating verbatim; the
remaining handler is skipped. -/
theorem notify_wraps_handler_keyError :
    dictGet dKE.handlers eventTest.className
      = some [keyErrorHandler, handlerA] ∧
    keyErrorHandler.handleOutcome = some PyExc.keyError ∧
    notify dKE eventTest
      = ([(keyErrorHandler, eventTest)], some (.unknownEvent "EventTest")) := by
  refine ⟨by decide, rfl, by decide⟩

/-- C3: evaluation at the failing input.  Two events constructed without an
explicit timestamp at two distinct construction-time clock readings both
carry the class-definition-time reading: the dataclass field default was
computed once when the class body ran, so the construction-time clock is
never consulted and the two readings coincide instead of differing. -/
theorem default_timestamp_fixed :
    mkEvent "2022-01-01T00:00:00" "2023-05-05T10:00:00" "OrderCreatedEvent"
        orderPayload none
      = .ok { className := "OrderCreatedEvent", data := orderPayload,
              date_time_ocurred := "2022-01-01T00:00:00" } ∧
    mkEvent "2022-01-01T00:00:00" "2024-06-06T12:00:00" "OrderCreatedEvent"
        orderPayload none
      = .ok { className := "OrderCreatedEvent", data := orderPayload,
              date_time_ocurred := "2022-01-01T00:00:00" } ∧
    ("2023-05-05T10:00:00" : String) ≠ "2024-06-06T12:00:00" := by
  refine ⟨rfl, rfl, by decide⟩

/-- C8: event construction raises the invalid-payload `ValueError` exactly
when the payload is not a dataclass (the structured-record predicate),
surfacing it to the constructing caller, and succeeds on a dataclass
payload, storing the payload and the explicit or defaulted timestamp. -/
theorem mkEvent_payload_check (cdt now cn : String) (data : Payload)
    (ts : Option String) :
    (data.isDataclass = false →
      mkEvent cdt now cn data ts = .error .invalidPayload) ∧
    (data.isDataclass = true →
      mkEvent cdt now cn data ts
        = .ok { className := cn, data := data,
                date_time_ocurred := ts.getD cdt }) := by
  constructor <;> intro hb <;> simp [mkEvent, hb]

/-- C8 witness: a plain `int` payload is rejected with the invalid-payload
error; the order payload is accepted. -/
theorem mkEvent_payload_check_witness :
    mkEvent "T0" "T1" "EventTest" badPayload none = .error .invalidPayload ∧
    mkEvent "T0" "T1" "EventTest" orderPayload none
      = .ok { className := "EventTest", data := orderPayload,
              date_time_ocurred := "T0" } :=
  ⟨(mkEvent_payload_check "T0" "T1" "EventTest" badPayload none).1 rfl,
   (mkEvent_payload_check "T0" "T1" "EventTest" orderPayload none).2 rfl⟩

/-- C9 counterexample: an event whose payload class name lowercases to
"date_time_occurred" produces a single-entry map — the payload entry
overwrites the timestamp entry in the dict literal — so `to_dict` does not
return exactly two top-level entries for every successfully constructed
event. -/
theorem to_dict_key_collision :
    pyLower shoutEvent.data.className = "date_time_occurred" ∧
    Event.to_dict shoutEvent
      = [("date_time_occurred", .jobj [("status", .pstr "created")])] ∧
    (Event.to_dict shoutEvent).length ≠ 2 := by
  refine ⟨by decide, by decide, by decide⟩

/-- C9 amended: whenever the lowercased payload class name differs from
"date_time_occurred", `to_dict` returns exactly the two-entry map: the
string-valued timestamp under "date_time_occurred" and the flattened payload
field set under the lowercased payload class name — and, being a pure
function of the event, it is reproducible across calls.  When the two keys
coincide the payload entry overwrites the timestamp entry, leaving one
entry. -/
theorem to_dict_two_entries (e : Event)
    (hne : pyLower e.data.className ≠ "date_time_occurred") :
    Event.to_dict e
      = [("date_time_occurred", .jstr e.date_time_ocurred),
         (pyLower e.data.className, .jobj e.data.fields)] := by
  have h2 : ¬ ("date_time_occurred" = pyLower e.data.className) :=
    fun h => hne h.symm
  simp [Event.to_dict, dictSet, h2]

/-- C9 witness: the order-payload event yields the two-entry map keyed by
"date_time_occurred" and "order". -/
theorem to_dict_two_entries_witness :
    Event.to_dict orderEvent
      = [("date_time_occurred", .jstr "2022-01-01T00:00:00"),
         ("order", .jobj [("status", .pstr "created"),
                          ("total", .pint 100)])] :=
  to_dict_two_entries orderEvent (by decide)

/-- C10: the registration guard is nominal, not behavioral.  An instance of
the base `EventHandlerInterface` whose class never overrides `handle` passes
the `isinstance` test: `register` succeeds and adds it to the set, and a
subsequent `notify` for that event name invokes it and raises
`NotImplementedError` from the base `handle` during delivery. -/
theorem register_guard_nominal :
    baseHandler.isInstance = true ∧
    baseHandler.overridesHandle = false ∧
    (register d0 "EventTest" baseHandler).2 = none ∧
    dictGet (register d0 "EventTest" baseHandler).1.handlers "EventTest"
      = some [baseHandler] ∧
    notify (register d0 "EventTest" baseHandler).1 eventTest
      = ([(baseHandler, eventTest)], some .notImplemented) := by
  refine ⟨rfl, rfl, rfl, by decide, by decide⟩

end DomainEvents
